import Mathlib

/-!
Verification of the graphsensor signal-segment classifier.

Shallow embedding of the two source files

  src/models/modules/signal_segment_representation.py
  src/models/WISDM_baseline/ResNet32.py

Shapes are modelled as lists of natural numbers, with `Option` as the error
channel (a PyTorch runtime shape error or an invalid argument is `none`).
Value-level semantics of the residual blocks and the squeeze-and-excite gates
is modelled over the real numbers.
-/

namespace GraphSensor

/-! ## Python scalar helpers -/

/-- Python `int(q)` on a float/rational value: truncation toward zero. -/
def pyInt (q : ℚ) : ℤ := if 0 ≤ q then ⌊q⌋ else ⌈q⌉

/-- Python `round(q)`: round half to even (banker's rounding). -/
def pyRound (q : ℚ) : ℤ :=
  if q - ⌊q⌋ < 1/2 then ⌊q⌋
  else if 1/2 < q - ⌊q⌋ then ⌊q⌋ + 1
  else if 2 ∣ ⌊q⌋ then ⌊q⌋ else ⌊q⌋ + 1

/-! ## Generic 1D/2D window-length arithmetic

`nn.Conv1d`/`nn.Conv2d`/`nn.MaxPool1d`/`nn.MaxPool2d` (dilation 1) all map an
input extent `L` with kernel `k`, stride `s`, padding `p` to
`(L + 2p - k) / s + 1`; PyTorch raises when the padded input is smaller than
the kernel, which is the `none` branch. -/

def convLen (L k s p : ℕ) : Option ℕ :=
  if L + 2 * p < k then none else some ((L + 2 * p - k) / s + 1)

/-! ## signal_segment_representation.py, segmentation stage -/

/-- Line 53: `self.overlapping = int(segment_size - segment_size * overlapping_rate)`,
the stride used for the sliding window. -/
def ssrOverlapping (segment_size : ℕ) (overlapping_rate : ℚ) : ℤ :=
  pyInt ((segment_size : ℚ) - (segment_size : ℚ) * overlapping_rate)

/-- Modelled from the spec: the claimed stride `W - round(W × overlap_rate)`
(a second definition following the spec's words, for comparison with
`ssrOverlapping` which comes from the source). -/
def specStride (W : ℕ) (overlap_rate : ℚ) : ℤ :=
  (W : ℤ) - pyRound ((W : ℚ) * overlap_rate)

/-- Shape semantics of `SignalSegmentDefinition.forward` (lines 32-36) on an
input of shape (B, 1, 1, L) with kernel `(1, W)` and stride `s`:
`F.unfold` produces (B, 1·1·W, K) with `K = (L - W) / s + 1` (it raises if
`s = 0` or the kernel exceeds the input), then `permute(0, 2, 1)` and
`unsqueeze(-2)` give (B, K, 1, W). -/
def ssdForwardShape (W s B L : ℕ) : Option (List ℕ) :=
  if s = 0 then none
  else if L < W then none
  else some [B, (L - W) / s + 1, 1, W]

/-! ## signal_segment_representation.py, SignalSegment2Vec -/

/-- Length chain of `SignalSegment2Vec` (lines 112-130) applied to a segment of
length `w`: Conv1d(k 49, s 6, p 24), MaxPool1d(k 7, s 4, p 3),
Conv1d(k 7, s 1, p 3) twice, MaxPool1d(k 3, s 4, p 1), then the AFR stage
`_make_layer(ResBasicBlock, 30, 1)` whose conv1 and conv2 are both
kernel-1 stride-1 convolutions (the third positional `nn.Conv1d` argument is
the kernel size) and whose downsample is Conv1d(128, 30, kernel 1, stride 1);
the residual addition requires the main-path and downsample lengths to agree. -/
def seg2vecLen (w : ℕ) : Option ℕ := do
  let l1 ← convLen w 49 6 24
  let l2 ← convLen l1 7 4 3
  let l3 ← convLen l2 7 1 3
  let l4 ← convLen l3 7 1 3
  let l5 ← convLen l4 3 4 1
  let l6 ← convLen l5 1 1 0
  let l7 ← convLen l6 1 1 0
  let ld ← convLen l5 1 1 0
  if l7 = ld then some l7 else none

/-- Shape of `x.squeeze()`: every axis of extent 1 is removed. -/
def squeezeShape (shape : List ℕ) : List ℕ := shape.filter (fun d => d ≠ 1)

/-- Shape semantics of `SignalSegmentRepresentation.forward` (lines 58-73) on
an input of shape (B, 1, 1, L), for a module built with arguments
`(segment_size, overlapping_rate, segment_num)` (lines 51-56; the encoder is
`SignalSegment2Vec(30)`, so 30 output channels).

Steps: segmentation, `x.squeeze()`; then `x.size()[1]` needs rank at least 2
and `x[:, idx, :]` rank at least 3 (squeezing the 4-list that contains a
literal 1 yields rank at most 3, so exactly rank 3 proceeds); per index,
`data.unsqueeze(1)` is (b, 1, w) which `SignalSegment2Vec` maps to
(b, 30, l); `out.view(b, 1, -1)` flattens to (b, 1, 30·l); `torch.cat` over
the `n` loop iterations on dim 1 gives (b, n, 30·l) and `unsqueeze(2)` gives
(b, n, 1, 30·l); `GNA(segment_num)` requires its channel axis `n` to equal
`segment_num` and preserves the shape; finally `permute(0, 2, 1, 3)`. -/
def ssrForwardShape (segment_size : ℕ) (overlapping_rate : ℚ) (segment_num : ℕ)
    (B L : ℕ) : Option (List ℕ) :=
  let sZ := ssrOverlapping segment_size overlapping_rate
  if sZ ≤ 0 then none
  else if L < segment_size then none
  else
    let s := sZ.toNat
    let K := (L - segment_size) / s + 1
    match squeezeShape [B, K, 1, segment_size] with
    | [b, n, w] =>
      match seg2vecLen w with
      | some l => if n = segment_num then some [b, 1, n, 30 * l] else none
      | none => none
    | _ => none

/-! ## signal_segment_representation.py, GNA construction -/

/-- The channel widths of the two 1x1 convolutions built by `GNA.__init__`. -/
structure GNACfg where
  squeeze_channels : ℕ
  expand_channels : ℕ
  deriving DecidableEq, Repr

/-- `GNA.__init__` (lines 86-94): builds `Conv2d(channel, channel // reduction)`
and `Conv2d(channel // reduction, channel)` with Python floor division.
`channel // reduction` raises ZeroDivisionError when `reduction = 0`, the
`none` branch; for every positive reduction the source performs no
divisibility validation and raises no error, so construction succeeds
(`Option` is the error channel: `none` is a constructor failure). -/
def gnaInit (channel reduction : ℕ) : Option GNACfg :=
  if reduction = 0 then none else some ⟨channel / reduction, channel⟩

/-! ## ResNet32.py shape semantics -/

/-- Spatial extent of one `BasicBlock` (lines 5-36): conv1 is 3x3 stride `s`
padding 1, conv2 is 3x3 stride 1 padding 1, the optional downsample is a 1x1
stride-`s` convolution; the residual addition requires the two branch extents
to agree. -/
def basicBlockShape (h s : ℕ) (down : Bool) : Option ℕ := do
  let a ← convLen h 3 s 1
  let b ← convLen a 3 1 1
  let r ← if down then convLen h 1 s 0 else some h
  if b = r then some b else none

/-- The `for _ in range(1, blocks)` tail of `_make_layer` (lines 83-84): each
extra block has stride 1 and no downsample. -/
def extraBlocksShape : ℕ → ℕ → Option ℕ
  | 0, h => some h
  | m + 1, h => do
      let h2 ← basicBlockShape h 1 false
      extraBlocksShape m h2

/-- `ResNet._make_layer` (lines 70-85): a downsample is built iff
`stride != 1 or self.in_planes != planes`; the first block takes the stride,
the remaining `blocks - 1` blocks are stride-1 identity blocks. -/
def resnetMakeLayerShape (in_planes planes h s blocks : ℕ) : Option ℕ := do
  let h1 ← basicBlockShape h s (if s ≠ 1 ∨ in_planes ≠ planes then true else false)
  extraBlocksShape (blocks - 1) h1

/-- Shape semantics of `ResNet.forward` (lines 87-105) on a batch of vectors,
input shape (B, D), for `ResNet(block, [l1, l2, l3, l4], channels, numClasses)`:
`unsqueeze(-2)` gives (B, 1, D); `fc1 = Linear(200, 32 * 32)` requires
`D = 200` and gives (B, 1, 1024); `view(B, 1, 32, 32)` reshapes to a square
map of hard-coded side 32; `conv1` is 7x7 stride 2 padding 3 and requires its
`channels` constructor argument to equal the actual channel axis 1; maxpool
3x3 stride 2 padding 1; the four stages with strides 1, 2, 2, 2 and channel
widths 64, 128, 256, 512; `AdaptiveAvgPool2d((1,1))` (defined for a nonempty
map) then flatten leaves 512 features, matching `fc2 = Linear(512, 256)` +
GELU + `Linear(256, numClasses)`; `log_softmax` preserves the shape. -/
def resnetForwardShape (channels numClasses l1 l2 l3 l4 B D : ℕ) : Option (List ℕ) :=
  if D ≠ 200 then none
  else if channels ≠ 1 then none
  else (do
    let h1 ← convLen 32 7 2 3
    let h2 ← convLen h1 3 2 1
    let h3 ← resnetMakeLayerShape 64 64 h2 1 l1
    let h4 ← resnetMakeLayerShape 64 128 h3 2 l2
    let h5 ← resnetMakeLayerShape 128 256 h4 2 l3
    let h6 ← resnetMakeLayerShape 256 512 h5 2 l4
    if h6 = 0 then none else some [B, numClasses])

/-! ## Helper lemmas -/

theorem convLen_eq {L k p : ℕ} (s : ℕ) (h : k ≤ L + 2 * p) :
    convLen L k s p = some ((L + 2 * p - k) / s + 1) := by
  simp [convLen]
  omega

theorem convLen_one {L : ℕ} (h : 1 ≤ L) : convLen L 1 1 0 = some L := by
  simp [convLen]
  omega

theorem squeezeShape_four {a b c : ℕ} (ha : a ≠ 1) (hb : b ≠ 1) (hc : c ≠ 1) :
    squeezeShape [a, b, 1, c] = [a, b, c] := by
  simp [squeezeShape, List.filter, ha, hb, hc]

theorem extraBlocksShape_pres (m : ℕ) {h : ℕ} (hh : 1 ≤ h) :
    extraBlocksShape m h = some h := by
  induction m with
  | zero => rfl
  | succ k ih =>
      have hb : basicBlockShape h 1 false = some h := by
        have h1 : convLen h 3 1 1 = some h := by
          rw [convLen_eq 1 (by omega)]
          congr 1
          omega
        simp [basicBlockShape, h1]
      simp [extraBlocksShape, hb, ih]

/-! ## Value-level semantics over the reals

Tensors are total functions over `Fin`-indexed axes (one sample; the batch
axis is dropped, every layer acts per sample). `nn.GELU` is PyTorch's exact
Gaussian error linear unit `x * Φ(x)` with `Φ(x) = (1 + erf(x / √2)) / 2`;
`nn.Sigmoid` is `1 / (1 + exp(-x))`; `nn.ReLU` is `max x 0`; batch
normalization is modelled in inference form with its per-channel affine
parameters and running statistics. -/

noncomputable def sigmoid (x : ℝ) : ℝ := 1 / (1 + Real.exp (-x))

noncomputable def erf (x : ℝ) : ℝ :=
  2 / Real.sqrt Real.pi * ∫ t in (0 : ℝ)..x, Real.exp (-t ^ 2)

noncomputable def gelu (x : ℝ) : ℝ := x * ((1 + erf (x / Real.sqrt 2)) / 2)

def relu (x : ℝ) : ℝ := max x 0

/-- Learned state of `nn.BatchNorm1d` / `nn.BatchNorm2d`: per-channel affine
weight and bias plus running statistics. -/
structure BatchNormParams (C : ℕ) where
  weight : Fin C → ℝ
  bias : Fin C → ℝ
  running_mean : Fin C → ℝ
  running_var : Fin C → ℝ
  eps : ℝ

/-- One batch-normalized value (inference mode). -/
noncomputable def bnApply {C : ℕ} (p : BatchNormParams C) (c : Fin C) (v : ℝ) : ℝ :=
  p.weight c * ((v - p.running_mean c) / Real.sqrt (p.running_var c + p.eps)) + p.bias c

/-- Freshly constructed `nn.BatchNorm1d/2d(C)`: weight 1, bias 0, running
mean 0, running variance 1, eps 1e-5. -/
noncomputable def bnDefault (C : ℕ) : BatchNormParams C :=
  ⟨fun _ => 1, fun _ => 0, fun _ => 0, fun _ => 1, 1 / 100000⟩

/-- Weights of `ResLayer` (lines 158-167), the 1D squeeze-and-excite gate:
`Linear(channel, channel // reduction, bias=False)` then
`Linear(channel // reduction, channel, bias=False)`. -/
structure ResLayerParams (channel reduction : ℕ) where
  fc1 : Fin (channel / reduction) → Fin channel → ℝ
  fc2 : Fin channel → Fin (channel / reduction) → ℝ

/-- `ResLayer.forward` (lines 169-173): global average pool over the length
axis, fc1, GELU, fc2, Sigmoid, then rescale every element of each channel by
that channel's gate value. -/
noncomputable def ResLayer.forward {channel reduction L : ℕ}
    (p : ResLayerParams channel reduction) (x : Fin channel → Fin L → ℝ) :
    Fin channel → Fin L → ℝ :=
  let y : Fin channel → ℝ := fun c => (∑ i, x c i) / L
  let h : Fin (channel / reduction) → ℝ := fun j => gelu (∑ c, p.fc1 j c * y c)
  let g : Fin channel → ℝ := fun c => sigmoid (∑ j, p.fc2 c j * h j)
  fun c i => x c i * g c

/-- Weights of `GNA` (lines 86-94), the 2D squeeze-and-excite gate over the
segment axis: two 1x1 bias-free `Conv2d` layers acting on the channel axis. -/
structure GNAParams (channel reduction : ℕ) where
  fc1 : Fin (channel / reduction) → Fin channel → ℝ
  fc2 : Fin channel → Fin (channel / reduction) → ℝ

/-- `GNA.forward` (lines 96-100): `AdaptiveAvgPool2d(1)` over both spatial
axes, the 1x1-conv bottleneck with GELU, Sigmoid, then `x * y.expand_as(x)`. -/
noncomputable def GNA.forward {channel reduction H W : ℕ}
    (p : GNAParams channel reduction) (x : Fin channel → Fin H → Fin W → ℝ) :
    Fin channel → Fin H → Fin W → ℝ :=
  let y : Fin channel → ℝ := fun c => (∑ i, ∑ j, x c i j) / (H * W)
  let h : Fin (channel / reduction) → ℝ := fun j => gelu (∑ c, p.fc1 j c * y c)
  let g : Fin channel → ℝ := fun c => sigmoid (∑ j, p.fc2 c j * h j)
  fun c i j => x c i j * g c

/-- The resolved shortcut branch of a residual block: `downsample = None` is
only reachable when input and output channel counts agree (otherwise the
residual addition itself would fail), `proj` is the 1x1 convolution +
normalization branch built by `_make_layer`. -/
inductive Downsample : ℕ → ℕ → Type where
  | identity {c : ℕ} : Downsample c c
  | proj {cin cout : ℕ} (conv : Fin cout → Fin cin → ℝ) (bn : BatchNormParams cout) :
      Downsample cin cout

noncomputable def Downsample.apply1d {cin cout L : ℕ} (d : Downsample cin cout)
    (x : Fin cin → Fin L → ℝ) : Fin cout → Fin L → ℝ :=
  match d with
  | .identity => x
  | .proj conv bn => fun c i => bnApply bn c (∑ c2, conv c c2 * x c2 i)

noncomputable def Downsample.apply2d {cin cout H W : ℕ} (d : Downsample cin cout)
    (x : Fin cin → Fin H → Fin W → ℝ) : Fin cout → Fin H → Fin W → ℝ :=
  match d with
  | .identity => x
  | .proj conv bn => fun c i j => bnApply bn c (∑ c2, conv c c2 * x c2 i j)

/-- A pointwise (kernel-1, stride-1, padding-0) `nn.Conv1d` with bias, which
is what `ResBasicBlock.__init__` builds for both of its convolutions when the
`stride` parameter is 1 (the third positional `nn.Conv1d` argument is the
kernel size, so conv1 has kernel `stride` and stride 1; `_make_layer` only
ever constructs stride-1 blocks). -/
structure Conv1x1Params (cin cout : ℕ) where
  weight : Fin cout → Fin cin → ℝ
  bias : Fin cout → ℝ

noncomputable def conv1x1 {cin cout L : ℕ} (p : Conv1x1Params cin cout)
    (x : Fin cin → Fin L → ℝ) : Fin cout → Fin L → ℝ :=
  fun c i => p.bias c + ∑ c2, p.weight c c2 * x c2 i

/-- Learned state of `ResBasicBlock` (lines 176-188) as instantiated by
`_make_layer` (stride 1): two pointwise convolutions with their batch norms,
the embedded `ResLayer(planes, reduction=4)` gate, and the resolved
downsample branch. -/
structure ResBasicBlockParams (inplanes planes : ℕ) where
  conv1 : Conv1x1Params inplanes planes
  bn1 : BatchNormParams planes
  conv2 : Conv1x1Params planes planes
  bn2 : BatchNormParams planes
  reslayer : ResLayerParams planes 4
  downsample : Downsample inplanes planes

/-- `ResBasicBlock.forward` (lines 190-202), statement by statement:
`out = conv1(x)`, `out = bn1(out)`, `out = relu(out)` (the `relu` attribute
is `nn.GELU()`), `out = conv2(out)`, `out = bn2(out)`,
`out = reslayer(out)`, `residual = downsample(x) if downsample is not None
else x`, `out += residual`, `out = relu(out)`. -/
noncomputable def ResBasicBlock.forward {inplanes planes L : ℕ}
    (p : ResBasicBlockParams inplanes planes) (x : Fin inplanes → Fin L → ℝ) :
    Fin planes → Fin L → ℝ :=
  let residual := Downsample.apply1d p.downsample x
  let out := conv1x1 p.conv1 x
  let out := fun c i => bnApply p.bn1 c (out c i)
  let out := fun c i => gelu (out c i)
  let out := conv1x1 p.conv2 out
  let out := fun c i => bnApply p.bn2 c (out c i)
  let out := ResLayer.forward p.reslayer out
  let out := fun c i => out c i + residual c i
  fun c i => gelu (out c i)

/-- Zero-padded lookup for 2D convolution. -/
def padGet {C H W : ℕ} (x : Fin C → Fin H → Fin W → ℝ) (c : Fin C) (i j : ℤ) : ℝ :=
  if h : 0 ≤ i ∧ i < (H : ℤ) ∧ 0 ≤ j ∧ j < (W : ℤ) then
    x c ⟨i.toNat, by omega⟩ ⟨j.toNat, by omega⟩
  else 0

/-- A 3x3 stride-1 padding-1 bias-free `nn.Conv2d`, the shape-preserving
convolution used by `BasicBlock` in its stride-1 instantiation. -/
noncomputable def conv3x3 {cin cout H W : ℕ}
    (w : Fin cout → Fin cin → Fin 3 → Fin 3 → ℝ)
    (x : Fin cin → Fin H → Fin W → ℝ) : Fin cout → Fin H → Fin W → ℝ :=
  fun c i j => ∑ c2, ∑ a, ∑ b,
    w c c2 a b * padGet x c2 ((i : ℤ) + (a : ℤ) - 1) ((j : ℤ) + (b : ℤ) - 1)

/-- Learned state of the 2D `BasicBlock` (ResNet32.py lines 5-18) in its
stride-1 instantiation: two 3x3 bias-free convolutions with batch norms and
the resolved downsample branch. -/
structure BasicBlockParams (in_planes planes : ℕ) where
  conv1 : Fin planes → Fin in_planes → Fin 3 → Fin 3 → ℝ
  bn1 : BatchNormParams planes
  conv2 : Fin planes → Fin planes → Fin 3 → Fin 3 → ℝ
  bn2 : BatchNormParams planes
  downsample : Downsample in_planes planes

/-- `BasicBlock.forward` (ResNet32.py lines 20-36): conv1, bn1, ReLU, conv2,
bn2, `identity = downsample(x) if downsample is not None else x`,
`out = out + identity`, ReLU. -/
noncomputable def BasicBlock.forward {in_planes planes H W : ℕ}
    (p : BasicBlockParams in_planes planes) (x : Fin in_planes → Fin H → Fin W → ℝ) :
    Fin planes → Fin H → Fin W → ℝ :=
  let identity := Downsample.apply2d p.downsample x
  let out := conv3x3 p.conv1 x
  let out := fun c i j => bnApply p.bn1 c (out c i j)
  let out := fun c i j => relu (out c i j)
  let out := conv3x3 p.conv2 out
  let out := fun c i j => bnApply p.bn2 c (out c i j)
  let out := fun c i j => out c i j + identity c i j
  fun c i j => relu (out c i j)

/-- `F.log_softmax(x, dim=-1)` (ResNet32.py line 105) over one batch row. -/
noncomputable def logSoftmax {n : ℕ} (v : Fin n → ℝ) : Fin n → ℝ :=
  fun i => v i - Real.log (∑ j, Real.exp (v j))

/-! ## ResBasicBlock construction as configuration data -/

/-- Hyperparameters of one `nn.Conv1d` layer as passed at construction. -/
structure Conv1dCfg where
  in_channels : ℕ
  out_channels : ℕ
  kernel_size : ℕ
  stride : ℕ
  padding : ℕ
  has_bias : Bool
  deriving DecidableEq, Repr

/-- `ResBasicBlock.expansion = 1` (line 177). -/
def ResBasicBlock.expansion : ℕ := 1

/-- The downsample branch built by `SignalSegment2Vec._make_layer`
(lines 132-139): a 1x1 stride-`stride` bias-free convolution (plus batch
norm) exactly when `stride != 1 or self.inplanes != planes * block.expansion`,
otherwise `None`. -/
def makeLayerDownsample (inplanes planes stride : ℕ) : Option Conv1dCfg :=
  if stride ≠ 1 ∨ inplanes ≠ planes * ResBasicBlock.expansion then
    some ⟨inplanes, planes * ResBasicBlock.expansion, 1, stride, 0, false⟩
  else none

/-- The convolution hyperparameters fixed by `ResBasicBlock.__init__`
(lines 179-188): `self.conv1 = nn.Conv1d(inplanes, planes, stride)` passes
the block's `stride` parameter as the third positional argument of
`nn.Conv1d`, which is `kernel_size` — the convolution's stride and padding
take their defaults 1 and 0 and bias defaults to True; `self.conv2 =
nn.Conv1d(planes, planes, 1)` likewise. -/
structure ResBasicBlockCfg where
  conv1 : Conv1dCfg
  conv2 : Conv1dCfg
  downsample : Option Conv1dCfg
  deriving DecidableEq, Repr

def resBasicBlockInit (inplanes planes stride : ℕ) (downsample : Option Conv1dCfg) :
    ResBasicBlockCfg :=
  ⟨⟨inplanes, planes, stride, 1, 0, true⟩, ⟨planes, planes, 1, 1, 0, true⟩, downsample⟩

/-- Channel/length shape of one configured `nn.Conv1d`. -/
def conv1dCfgShape (cfg : Conv1dCfg) (ch L : ℕ) : Option (ℕ × ℕ) :=
  if ch ≠ cfg.in_channels then none
  else match convLen L cfg.kernel_size cfg.stride cfg.padding with
    | some l => some (cfg.out_channels, l)
    | none => none

/-- Channel/length shape of `ResBasicBlock.forward`: conv1, (bn1, GELU),
conv2, (bn2, ResLayer — all shape preserving), the residual branch, and the
residual addition which requires both branch shapes to agree. -/
def resBasicBlockShape (cfg : ResBasicBlockCfg) (ch L : ℕ) : Option (ℕ × ℕ) := do
  let (c1, l1) ← conv1dCfgShape cfg.conv1 ch L
  let (c2, l2) ← conv1dCfgShape cfg.conv2 c1 l1
  let (cr, lr) ← match cfg.downsample with
    | some d => conv1dCfgShape d ch L
    | none => some (ch, L)
  if c2 = cr ∧ l2 = lr then some (c2, l2) else none

/-! ## Claim theorems: segmentation and representation shapes -/

/-- C1: the claim says `SignalSegmentRepresentation.forward` returns a 4-axis
tensor with leading batch axis B for every B ≥ 1. The code contradicts its
own docstring at B = 1: `x.squeeze()` (line 61) removes the batch axis of the
(1, K, 1, W) segment tensor, after which `x[:, idx, :]` (line 64) indexes a
rank-2 tensor with three indices and raises; with the documented
configuration (segment_size 30, overlap 0.5, 199 segments, L = 3000) the
forward pass fails for B = 1 and succeeds for B = 2. -/
theorem ssr_forward_batch_one :
    ssrForwardShape 30 (1/2) 199 1 3000 = none ∧
    ssrForwardShape 30 (1/2) 199 2 3000 = some [2, 1, 199, 30] := by
  have h : ssrOverlapping 30 (1/2) = 15 := by norm_num [ssrOverlapping, pyInt]
  constructor
  · simp only [ssrForwardShape, h]
    decide
  · simp only [ssrForwardShape, h]
    decide

/-- C2 counterexample: the claimed stride `W - round(W × r)` differs from the
implemented `int(W - W * r)` at W = 16, r = 13/64 ∈ [0, 1): the code uses
stride 12 where the claim demands 13, and on a raw length L = 158 the claimed
segment-count formula gives 11 while the code produces 12 segments. -/
theorem segment_stride_round_cex :
    (0 : ℚ) ≤ 13/64 ∧ (13 : ℚ)/64 < 1 ∧
    ssrOverlapping 16 (13/64) = 12 ∧ specStride 16 (13/64) = 13 ∧
    ssdForwardShape 16 12 1 158 = some [1, 12, 1, 16] ∧
    (158 - 16) / 13 + 1 = 11 ∧ (12 : ℤ) ≠ 13 := by
  refine ⟨by norm_num, by norm_num, ?_, ?_, by decide, by decide, by decide⟩
  · norm_num [ssrOverlapping, pyInt]
  · norm_num [specStride, pyRound]

/-- C2 amended: the segmentation stride is `int(W - W * r)`, i.e. the
truncation `W - ⌈W·r⌉` for r ∈ [0, 1] (not `W - round(W·r)`); whenever that
stride s is positive and W ≤ L, the segment stage output shape is
(B, (L - W) / s + 1, 1, W); the claim's example L = 3000, W = 30, r = 0.5
does give stride 15 and K = 199. -/
theorem segment_count_amended :
    (∀ (W L B s : ℕ) (r : ℚ), ssrOverlapping W r = (s : ℤ) → 0 < s → W ≤ L →
        ssdForwardShape W s B L = some [B, (L - W) / s + 1, 1, W])
  ∧ (∀ (W : ℕ) (r : ℚ), 0 ≤ r → r ≤ 1 →
        ssrOverlapping W r = (W : ℤ) - ⌈(W : ℚ) * r⌉)
  ∧ ssrOverlapping 30 (1/2) = 15 ∧ (3000 - 30) / 15 + 1 = 199 := by
  refine ⟨?_, ?_, by norm_num [ssrOverlapping, pyInt], by decide⟩
  · intro W L B s r hs hs0 hWL
    rw [ssdForwardShape, if_neg (by omega), if_neg (by omega)]
  · intro W r _hr0 hr1
    have hWr : (W : ℚ) * r ≤ (W : ℚ) := by
      calc (W : ℚ) * r ≤ (W : ℚ) * 1 := by
            apply mul_le_mul_of_nonneg_left hr1 (by positivity)
        _ = (W : ℚ) := mul_one _
    have h0 : 0 ≤ (W : ℚ) - (W : ℚ) * r := by linarith
    simp only [ssrOverlapping, pyInt, if_pos h0]
    rw [show ((W : ℚ) - (W : ℚ) * r) = ((W : ℤ) : ℚ) + (-((W : ℚ) * r)) by push_cast; ring]
    rw [Int.floor_int_add, Int.floor_neg, ← sub_eq_add_neg]

/-- Witness for `segment_count_amended` at the spec's own example. -/
theorem segment_count_amended_witness :
    ssrOverlapping 30 (1/2) = ((15 : ℕ) : ℤ) ∧ 0 < (15 : ℕ) ∧ 30 ≤ 3000 ∧
    ssdForwardShape 30 15 1 3000 = some [1, (3000 - 30) / 15 + 1, 1, 30] ∧
    ssrOverlapping 16 (13/64) = (16 : ℤ) - ⌈(16 : ℚ) * (13/64)⌉ := by
  have h : ssrOverlapping 30 (1/2) = ((15 : ℕ) : ℤ) := by norm_num [ssrOverlapping, pyInt]
  exact ⟨h, by norm_num, by norm_num,
    segment_count_amended.1 30 3000 1 15 (1/2) h (by norm_num) (by norm_num),
    segment_count_amended.2.1 16 (13/64) (by norm_num) (by norm_num)⟩

/-- C3 counterexample: with segment_size 30, overlap 0.5, 199 segments and a
(2, 1, 1, 3000) input, `SignalSegmentRepresentation.forward` returns shape
(2, 1, 199, 30) = (batch, 1, num_segments, channels_enc); the claimed axis
order (batch, channels_enc, 1, num_segments) would be (2, 30, 1, 199). -/
theorem repr_axis_order_cex :
    ssrForwardShape 30 (1/2) 199 2 3000 = some [2, 1, 199, 30] ∧
    ([2, 1, 199, 30] : List ℕ) ≠ [2, 30, 1, 199] := by
  have h : ssrOverlapping 30 (1/2) = 15 := by norm_num [ssrOverlapping, pyInt]
  constructor
  · simp only [ssrForwardShape, h]
    decide
  · decide

/-- C3 amended: `permute(0, 2, 1, 3)` on the (B, K, 1, C) gated tensor puts
the singleton axis second: for every valid configuration (positive stride s,
W ≤ L, B ≥ 2, W ≥ 2, K ≥ 2, GNA channel count equal to K), the
Representation returned by `SignalSegmentRepresentation.forward` has axis
order (batch, 1, num_segments, channels_enc) with K = (L - W) / s + 1
segments and 30·l encoded channels. -/
theorem repr_axis_order_amended (W L B segNum s l : ℕ) (r : ℚ)
    (hs : ssrOverlapping W r = (s : ℤ)) (hs0 : 0 < s)
    (hB : 2 ≤ B) (hW : 2 ≤ W) (hWL : W ≤ L)
    (hK : 2 ≤ (L - W) / s + 1)
    (hl : seg2vecLen W = some l)
    (hseg : segNum = (L - W) / s + 1) :
    ssrForwardShape W r segNum B L = some [B, 1, (L - W) / s + 1, 30 * l] := by
  have hsq : squeezeShape [B, (L - W) / s + 1, 1, W] = [B, (L - W) / s + 1, W] :=
    squeezeShape_four (by omega) (by omega) (by omega)
  simp only [ssrForwardShape, hs]
  rw [if_neg (by omega), if_neg (by omega)]
  simp only [Int.toNat_natCast, hsq, hl, hseg, if_pos rfl]
  simp

/-- Witness for `repr_axis_order_amended` at the documented configuration. -/
theorem repr_axis_order_amended_witness :
    ssrOverlapping 30 (1/2) = ((15 : ℕ) : ℤ) ∧ seg2vecLen 30 = some 1 ∧
    ssrForwardShape 30 (1/2) 199 2 3000 = some [2, 1, (3000 - 30) / 15 + 1, 30 * 1] := by
  have h : ssrOverlapping 30 (1/2) = ((15 : ℕ) : ℤ) := by norm_num [ssrOverlapping, pyInt]
  exact ⟨h, by decide,
    repr_axis_order_amended 30 3000 2 199 15 1 (1/2) h (by decide) (by decide)
      (by decide) (by decide) (by decide) (by decide) (by decide)⟩

/-- C8 counterexample: `GNA.__init__` with channel = 3 and reduction = 2
(2 does not divide 3) succeeds and builds a runnable module whose bottleneck
has `3 // 2 = 1` channels; no ConfigurationError exists in the source. -/
theorem gna_init_no_error_cex :
    gnaInit 3 2 = some ⟨1, 3⟩ ∧ ¬ (2 ∣ 3) := ⟨rfl, by decide⟩

/-- C8 amended: for every channel count and every positive reduction factor
(a zero reduction fails with ZeroDivisionError at `channel // reduction`,
not with a ConfigurationError), constructing `GNA` never raises: the
bottleneck width is silently coerced to the floor division
`channel // reduction`, divisible or not. -/
theorem gna_init_always_succeeds (channel reduction : ℕ) (hr : 0 < reduction) :
    gnaInit channel reduction = some ⟨channel / reduction, channel⟩ ∧
    (gnaInit channel reduction).isSome = true := by
  rw [gnaInit, if_neg (by omega)]
  exact ⟨rfl, rfl⟩

/-- Witness for `gna_init_always_succeeds` at the non-dividing configuration
channel 3, reduction 2. -/
theorem gna_init_always_succeeds_witness :
    0 < 2 ∧ gnaInit 3 2 = some ⟨3 / 2, 3⟩ ∧ (gnaInit 3 2).isSome = true :=
  ⟨by decide, gna_init_always_succeeds 3 2 (by decide)⟩

/-- C9: `ResNet.forward` on a batch of vectors (B, D) succeeds with output
shape (B, numClasses) exactly when D = 200: `fc1` is hard-coded as
`Linear(200, 32 * 32)` and the `view(..., 32, 32)` side is fixed at 32
independent of the constructor arguments (block counts l1..l4, numClasses). -/
theorem resnet_forward_iff_200 (numClasses l1 l2 l3 l4 B D : ℕ) :
    resnetForwardShape 1 numClasses l1 l2 l3 l4 B D = some [B, numClasses] ↔ D = 200 := by
  constructor
  · intro h
    by_contra hD
    simp [resnetForwardShape, hD] at h
  · intro hD
    subst hD
    have e8 : extraBlocksShape (l1 - 1) 8 = some 8 := extraBlocksShape_pres _ (by norm_num)
    have e4 : extraBlocksShape (l2 - 1) 4 = some 4 := extraBlocksShape_pres _ (by norm_num)
    have e2 : extraBlocksShape (l3 - 1) 2 = some 2 := extraBlocksShape_pres _ (by norm_num)
    have e1 : extraBlocksShape (l4 - 1) 1 = some 1 := extraBlocksShape_pres _ (by norm_num)
    simp [resnetForwardShape, resnetMakeLayerShape, basicBlockShape, convLen, e8, e4, e2, e1]

/-! ## Helper lemmas for the value-level theorems -/

theorem sigmoid_pos (x : ℝ) : 0 < sigmoid x := by
  unfold sigmoid
  have := Real.exp_pos (-x)
  positivity

theorem sigmoid_lt_one (x : ℝ) : sigmoid x < 1 := by
  unfold sigmoid
  rw [div_lt_one (by positivity)]
  linarith [Real.exp_pos (-x)]

theorem abs_mul_sigmoid_le (v z : ℝ) : |v * sigmoid z| ≤ |v| := by
  rw [abs_mul, abs_of_pos (sigmoid_pos z)]
  exact mul_le_of_le_one_right (abs_nonneg v) (sigmoid_lt_one z).le

theorem gelu_zero : gelu 0 = 0 := by simp [gelu]

/-! ## Claim theorems: gates, residual blocks, log-softmax -/

/-- C4: `ResBasicBlock.forward` computes
conv1 → bn1 → GELU → conv2 → bn2 → ResLayer gate, applies the gate to `out`
before the residual addition, takes `residual = downsample(x)` when a
downsample branch exists and `residual = x` unchanged otherwise, and returns
GELU(out + residual); `_make_layer` builds the downsample branch (1x1
strided convolution plus batch norm) exactly when `stride != 1` or the
input/output channel counts differ. -/
theorem resbasicblock_forward_structure :
    (∀ inplanes planes stride : ℕ,
        (makeLayerDownsample inplanes planes stride).isSome ↔
          stride ≠ 1 ∨ inplanes ≠ planes)
  ∧ (∀ (inplanes planes L : ℕ) (p : ResBasicBlockParams inplanes planes)
        (x : Fin inplanes → Fin L → ℝ),
        ResBasicBlock.forward p x = fun c i =>
          gelu (ResLayer.forward p.reslayer
              (fun c2 i2 => bnApply p.bn2 c2 (conv1x1 p.conv2
                (fun c3 i3 => gelu (bnApply p.bn1 c3 (conv1x1 p.conv1 x c3 i3))) c2 i2)) c i
            + Downsample.apply1d p.downsample x c i))
  ∧ (∀ (C L : ℕ) (x : Fin C → Fin L → ℝ), Downsample.apply1d Downsample.identity x = x) := by
  refine ⟨?_, ?_, ?_⟩
  · intro inplanes planes stride
    rw [makeLayerDownsample]
    split <;> simp_all [ResBasicBlock.expansion]
  · intro inplanes planes L p x
    rfl
  · intro C L x
    rfl

/-- C5: both squeeze-and-excite gates return a tensor of the same shape in
which every element is the corresponding input element times a per-channel
sigmoid factor strictly between 0 and 1, so every output magnitude is at
most the input magnitude. -/
theorem channel_gate_bounded :
    (∀ (channel reduction L : ℕ) (p : ResLayerParams channel reduction)
        (x : Fin channel → Fin L → ℝ),
        (∀ c, ∃ s, 0 < s ∧ s < 1 ∧ ∀ i, ResLayer.forward p x c i = x c i * s)
      ∧ ∀ c i, |ResLayer.forward p x c i| ≤ |x c i|)
  ∧ (∀ (channel reduction H W : ℕ) (p : GNAParams channel reduction)
        (x : Fin channel → Fin H → Fin W → ℝ),
        (∀ c, ∃ s, 0 < s ∧ s < 1 ∧ ∀ i j, GNA.forward p x c i j = x c i j * s)
      ∧ ∀ c i j, |GNA.forward p x c i j| ≤ |x c i j|) := by
  constructor
  · intro channel reduction L p x
    refine ⟨fun c => ⟨_, sigmoid_pos _, sigmoid_lt_one _, fun i => rfl⟩,
      fun c i => abs_mul_sigmoid_le _ _⟩
  · intro channel reduction H W p x
    refine ⟨fun c => ⟨_, sigmoid_pos _, sigmoid_lt_one _, fun i j => rfl⟩,
      fun c i j => abs_mul_sigmoid_le _ _⟩

/-- C6: with an identity shortcut (matching channel counts, stride 1, no
downsample branch), zero-initialized convolutions (weights and biases zero)
and freshly constructed batch norms, `ResBasicBlock.forward` returns exactly
GELU(x) and the 2D `BasicBlock.forward` returns exactly ReLU(x), each
block's own nonlinearity applied to the unchanged input. -/
theorem residual_identity_zero_init :
    (∀ (C L : ℕ) (p : ResBasicBlockParams C C) (x : Fin C → Fin L → ℝ),
        p.conv1.weight = (fun _ _ => 0) → p.conv1.bias = (fun _ => 0) →
        p.conv2.weight = (fun _ _ => 0) → p.conv2.bias = (fun _ => 0) →
        p.bn1 = bnDefault C → p.bn2 = bnDefault C →
        p.downsample = Downsample.identity →
        ResBasicBlock.forward p x = fun c i => gelu (x c i))
  ∧ (∀ (C H W : ℕ) (q : BasicBlockParams C C) (y : Fin C → Fin H → Fin W → ℝ),
        q.conv1 = (fun _ _ _ _ => 0) → q.conv2 = (fun _ _ _ _ => 0) →
        q.bn1 = bnDefault C → q.bn2 = bnDefault C →
        q.downsample = Downsample.identity →
        BasicBlock.forward q y = fun c i j => relu (y c i j)) := by
  constructor
  · intro C L p x h1w h1b h2w h2b hbn1 hbn2 hd
    obtain ⟨⟨w1, b1⟩, bn1, ⟨w2, b2⟩, bn2, res, down⟩ := p
    simp only at h1w h1b h2w h2b hbn1 hbn2 hd
    subst h1w h1b h2w h2b hbn1 hbn2 hd
    funext c i
    simp [ResBasicBlock.forward, conv1x1, bnApply, bnDefault, ResLayer.forward,
      Downsample.apply1d, gelu_zero]
  · intro C H W q y h1 h2 hbn1 hbn2 hd
    obtain ⟨w1, bn1, w2, bn2, down⟩ := q
    simp only at h1 h2 hbn1 hbn2 hd
    subst h1 h2 hbn1 hbn2 hd
    funext c i j
    simp [BasicBlock.forward, conv3x3, bnApply, bnDefault, relu, Downsample.apply2d]

/-- Zero-initialized 1D block with default batch norms and identity shortcut. -/
noncomputable def rbZeroParams : ResBasicBlockParams 1 1 :=
  ⟨⟨fun _ _ => 0, fun _ => 0⟩, bnDefault 1, ⟨fun _ _ => 0, fun _ => 0⟩, bnDefault 1,
   ⟨fun _ _ => 0, fun _ _ => 0⟩, Downsample.identity⟩

/-- Zero-initialized 2D block with default batch norms and identity shortcut. -/
noncomputable def bbZeroParams : BasicBlockParams 1 1 :=
  ⟨fun _ _ _ _ => 0, bnDefault 1, fun _ _ _ _ => 0, bnDefault 1, Downsample.identity⟩

/-- Witness for `residual_identity_zero_init` on concrete all-ones inputs. -/
theorem residual_identity_zero_init_witness :
    rbZeroParams.conv1.weight = (fun _ _ => 0) ∧
    rbZeroParams.downsample = Downsample.identity ∧
    ResBasicBlock.forward rbZeroParams (fun (_ : Fin 1) (_ : Fin 1) => (1 : ℝ))
      = (fun (_ : Fin 1) (_ : Fin 1) => gelu 1) ∧
    BasicBlock.forward bbZeroParams (fun (_ : Fin 1) (_ : Fin 1) (_ : Fin 1) => (1 : ℝ))
      = (fun (_ : Fin 1) (_ : Fin 1) (_ : Fin 1) => relu 1) :=
  ⟨rfl, rfl,
    residual_identity_zero_init.1 1 1 rbZeroParams (fun _ _ => 1)
      rfl rfl rfl rfl rfl rfl rfl,
    residual_identity_zero_init.2 1 1 1 bbZeroParams (fun _ _ _ => 1)
      rfl rfl rfl rfl rfl⟩

/-- C7: exponentiating the log-softmax output of the backbone (the final
step of `ResNet.forward`) and summing over the class axis yields exactly 1
for every logit vector with at least one class. -/
theorem log_softmax_normalized {n : ℕ} (hn : 0 < n) (v : Fin n → ℝ) :
    ∑ i, Real.exp (logSoftmax v i) = 1 := by
  have hne : Nonempty (Fin n) := ⟨⟨0, hn⟩⟩
  have hS : 0 < ∑ j, Real.exp (v j) :=
    Finset.sum_pos (fun j _ => Real.exp_pos _) Finset.univ_nonempty
  simp only [logSoftmax, Real.exp_sub, Real.exp_log hS]
  rw [← Finset.sum_div, div_self hS.ne']

/-- Witness for `log_softmax_normalized` with one class and zero logits. -/
theorem log_softmax_normalized_witness :
    (0 : ℕ) < 1 ∧ ∑ i : Fin 1, Real.exp (logSoftmax (fun _ => (0 : ℝ)) i) = 1 :=
  ⟨Nat.one_pos, log_softmax_normalized Nat.one_pos (fun _ => 0)⟩

/-- C10: the third positional argument of `nn.Conv1d(inplanes, planes,
stride)` in `ResBasicBlock.__init__` is the kernel size, so conv1 has kernel
size `stride` and stride 1; for the stride-1 block built by
`SignalSegment2Vec._make_layer(ResBasicBlock, afr, 1)` (inplanes 128) both
convolutions are pointwise and the forward pass maps channel/length shape
(128, L) to (afr, L), preserving the length axis exactly. -/
theorem conv_third_arg_is_kernel :
    (∀ (inplanes planes stride : ℕ) (d : Option Conv1dCfg),
        (resBasicBlockInit inplanes planes stride d).conv1.kernel_size = stride
      ∧ (resBasicBlockInit inplanes planes stride d).conv1.stride = 1
      ∧ (resBasicBlockInit inplanes planes stride d).conv2.kernel_size = 1
      ∧ (resBasicBlockInit inplanes planes stride d).conv2.stride = 1)
  ∧ (∀ afr L : ℕ, 1 ≤ L →
      resBasicBlockShape (resBasicBlockInit 128 afr 1 (makeLayerDownsample 128 afr 1)) 128 L
        = some (afr, L)) := by
  refine ⟨fun _ _ _ _ => ⟨rfl, rfl, rfl, rfl⟩, ?_⟩
  intro afr L hL
  have hc : convLen L 1 1 0 = some L := convLen_one hL
  rcases eq_or_ne afr 128 with h | h
  · subst h
    simp [resBasicBlockShape, resBasicBlockInit, conv1dCfgShape, makeLayerDownsample,
      ResBasicBlock.expansion, hc]
  · simp [resBasicBlockShape, resBasicBlockInit, conv1dCfgShape, makeLayerDownsample,
      ResBasicBlock.expansion, hc, h, Ne.symm h]

/-- Witness for `conv_third_arg_is_kernel` with afr = 30 (the value used by
`SignalSegment2Vec(30)`) and a length-5 input. -/
theorem conv_third_arg_is_kernel_witness :
    1 ≤ 5 ∧
    resBasicBlockShape (resBasicBlockInit 128 30 1 (makeLayerDownsample 128 30 1)) 128 5
      = some (30, 5) :=
  ⟨by decide, conv_third_arg_is_kernel.2 30 5 (by decide)⟩

end GraphSensor
